import Mathlib

/-!
Verification development for the voicesnip push-to-talk utility.

The definitions below are a shallow embedding of the Python sources:
`voicesnip/hotkey_manager.py`, `voicesnip/audio_recorder.py`,
`voicesnip/core.py`, `providers/__init__.py`, `providers/deepgram.py`,
and `providers/faster_whisper_server.py`.  Pure functions become Lean
functions; the external world (key events, the audio driver, HTTP
responses) enters as explicit parameters; Python exceptions become
`Except` results; Python `str` methods are re-implemented over `List
Char` so that everything evaluates inside the kernel.
-/

deriving instance DecidableEq for Except

namespace VoiceSnip

/-! ## Python string primitives (over `List Char`)

`pySplitPlus` models `str.split('+')` (keeps empty pieces), `pyStrip`
models `str.strip()` (drop whitespace at both ends), `pyLower` models
`str.lower()` (per-character lowercase, ASCII-faithful). -/

def pySplitPlus : List Char → List (List Char)
  | [] => [[]]
  | c :: rest =>
    let r := pySplitPlus rest
    if c = '+' then [] :: r
    else
      match r with
      | [] => [[c]]
      | t :: ts => (c :: t) :: ts

def pyStrip (cs : List Char) : List Char :=
  ((cs.dropWhile Char.isWhitespace).reverse.dropWhile Char.isWhitespace).reverse

def pyLower (cs : List Char) : List Char :=
  cs.map Char.toLower

def pyStripStr (s : String) : String :=
  String.mk (pyStrip s.data)

def pyLowerStr (s : String) : String :=
  String.mk (pyLower s.data)

/-! ## Keys (pynput model)

`PKey.special n` stands for the named `keyboard.Key.<n>` objects and
`PKey.keycode c` for a `keyboard.KeyCode` whose `char` attribute is `c`
(`none` models Python `None`). -/

inductive PKey where
  | special : String → PKey
  | keycode : Option String → PKey
  deriving DecidableEq, Repr

/-- `constants.KEY_MAP`: hotkey token → pynput key object. -/
def KEY_MAP : String → Option PKey
  | "ctrl" => some (.special "ctrl")
  | "control" => some (.special "ctrl")
  | "alt" => some (.special "alt")
  | "shift" => some (.special "shift")
  | "cmd" => some (.special "cmd")
  | "super" => some (.special "cmd")
  | "space" => some (.special "space")
  | "enter" => some (.special "enter")
  | "tab" => some (.special "tab")
  | "esc" => some (.special "esc")
  | "escape" => some (.special "esc")
  | "f1" => some (.special "f1")
  | "f2" => some (.special "f2")
  | "f3" => some (.special "f3")
  | "f4" => some (.special "f4")
  | "f5" => some (.special "f5")
  | "f6" => some (.special "f6")
  | "f7" => some (.special "f7")
  | "f8" => some (.special "f8")
  | "f9" => some (.special "f9")
  | "f10" => some (.special "f10")
  | "f11" => some (.special "f11")
  | "f12" => some (.special "f12")
  | _ => none

/-- The modifier-name list tested by `parse_hotkey`'s loop. -/
def MODIFIER_NAMES : List String :=
  ["ctrl", "control", "alt", "shift", "cmd", "super"]

def isModifierName (s : String) : Bool :=
  decide (s ∈ MODIFIER_NAMES)

/-- Result of `HotkeyManager.parse_hotkey`: the `config` dict. -/
structure HotkeyConfig where
  modifiers : List PKey
  trigger_key : PKey
  raw : String
  deriving DecidableEq, Repr

/-- The tokens `[k.strip().lower() for k in hotkey_str.split('+') if k.strip()]`. -/
def hotkeyParts (s : String) : List String :=
  ((pySplitPlus s.data).filter (fun k => decide (pyStrip k ≠ []))).map
    (fun k => String.mk (pyLower (pyStrip k)))

/-- What a non-modifier token becomes: a named key when it is in
`KEY_MAP`, otherwise `keyboard.KeyCode.from_char(part)`. -/
def triggerOf (part : String) : PKey :=
  match KEY_MAP part with
  | some k => k
  | none => PKey.keycode (some part)

/-- One iteration of `parse_hotkey`'s `for part in parts` loop over the
accumulator (modifier list so far, trigger so far). -/
def parseStep (acc : List PKey × Option PKey) (part : String) : List PKey × Option PKey :=
  if isModifierName part then
    match KEY_MAP part with
    | some k => (acc.1 ++ [k], acc.2)
    | none => acc
  else
    match KEY_MAP part with
    | some k => (acc.1, some k)
    | none => (acc.1, some (PKey.keycode (some part)))

/-- `HotkeyManager.parse_hotkey` (hotkey_manager.py, lines 21-61).
`ValueError` becomes `Except.error` carrying the message. -/
def parse_hotkey (hotkey_str : String) : Except String HotkeyConfig :=
  if hotkey_str = "" ∨ pyStrip hotkey_str.data = [] then
    .error "Hotkey cannot be empty"
  else
    let parts := hotkeyParts hotkey_str
    if parts = [] then
      .error "Invalid hotkey format"
    else
      let r := parts.foldl parseStep ([], none)
      match r.2 with
      | none => .error ("Invalid hotkey: no trigger key found in '" ++ hotkey_str ++ "'")
      | some t => .ok ⟨r.1, t, hotkey_str⟩

/-- The trigger-presence test inside `is_hotkey_pressed`: for a
`KeyCode` trigger, a pressed key counts when it is a `KeyCode` with a
truthy `char` equal (lower-cased) to the trigger's lower-cased `char`
(an untruthy trigger `char` makes `expected_char` `None`, which nothing
matches); for a named trigger, only identity counts. -/
def trigger_match : PKey → PKey → Bool
  | PKey.keycode c, PKey.keycode (some pc) =>
    let expected : Option (List Char) :=
      match c with
      | some s => if s.data = [] then none else some (pyLower s.data)
      | none => none
    decide (pc.data ≠ []) && decide (some (pyLower pc.data) = expected)
  | PKey.keycode _, _ => false
  | t, p => decide (p = t)

/-- `HotkeyManager.is_hotkey_pressed` (hotkey_manager.py, lines 78-106):
all configured modifiers must be in the pressed set, and the trigger
must be present per `trigger_match`. -/
def is_hotkey_pressed (cfg : HotkeyConfig) (pressed : List PKey) : Bool :=
  cfg.modifiers.all (fun m => pressed.any (fun p => decide (p = m))) &&
    pressed.any (fun p => trigger_match cfg.trigger_key p)

/-- Triggers actually produced by `parse_hotkey`: named keys, or
character keys with a non-empty `char`. -/
def wfTrigger : PKey → Bool
  | PKey.keycode (some s) => decide (s.data ≠ [])
  | PKey.keycode none => false
  | PKey.special _ => true

/-- The spec's notion of "the chord is satisfied": every modifier is in
the pressed set, and the trigger is present — case-insensitively by
character value for single-character triggers, by exact identity for
named keys. -/
def chordSatisfiedSpec (cfg : HotkeyConfig) (pressed : List PKey) : Prop :=
  (∀ m ∈ cfg.modifiers, m ∈ pressed) ∧
    (match cfg.trigger_key with
     | PKey.keycode (some s) =>
       ∃ pc : String, PKey.keycode (some pc) ∈ pressed ∧ pyLower pc.data = pyLower s.data
     | t => t ∈ pressed)

/-! ## AudioRecorder (audio_recorder.py)

State of one `AudioRecorder` instance.  Chunks are lists of 16-bit
sample bit patterns (`Nat < 65536`); the stream is a driver handle id.
`constants.CHANNELS = 1`, 16-bit samples (`DTYPE = "int16"`). -/

def CHANNELS : Nat := 1

structure RecState where
  device_id : Option Nat
  sample_rate : Nat
  is_recording : Bool
  audio_data : List (List Nat)
  stream : Option Nat
  deriving DecidableEq, Repr

/-- How the attempt to open and start the input stream went:
`sd.InputStream(...)` itself may raise, or the constructed stream's
`.start()` may raise. -/
inductive OpenOutcome where
  | ok : Nat → OpenOutcome
  | failConstruct : OpenOutcome
  | failStart : Nat → OpenOutcome
  deriving DecidableEq, Repr

/-- Observable stream-lifecycle events emitted during a call. -/
inductive RecEvent where
  | opened : Nat → RecEvent
  | closed : Nat → RecEvent
  deriving DecidableEq, Repr

/-- `AudioRecorder.start_recording` (audio_recorder.py, lines 36-73).
Returns (new state, stream events in order, whether the device
exception propagated to the caller).  On failure the handler clears
`is_recording`, closes the stream if one is set, nulls it, and
re-raises. -/
def start_recording (st : RecState) (outcome : OpenOutcome) :
    RecState × List RecEvent × Bool :=
  if st.is_recording then
    (st, [], false)
  else
    let st1 : RecState := { st with is_recording := true, audio_data := [] }
    match outcome with
    | .ok sid => ({ st1 with stream := some sid }, [.opened sid], false)
    | .failConstruct =>
      let st2 : RecState := { st1 with is_recording := false }
      match st2.stream with
      | some old => ({ st2 with stream := none }, [.closed old], true)
      | none => (st2, [], true)
    | .failStart sid =>
      ({ st1 with is_recording := false, stream := none },
       [.opened sid, .closed sid], true)

/-- `AudioRecorder.stop_recording` (audio_recorder.py, lines 75-92):
disarm, stop/close the stream, report whether any chunk was captured. -/
def rec_stop_recording (st : RecState) : RecState × Bool :=
  if st.is_recording = false then
    (st, false)
  else
    ({ st with is_recording := false, stream := none },
     decide (st.audio_data ≠ []))

/-- `AudioRecorder.cleanup` (audio_recorder.py, lines 115-126). -/
def rec_cleanup (st : RecState) : RecState :=
  { st with is_recording := false, stream := none }

/-! ## WAV framing (audio_recorder.get_audio_wav_bytes)

Byte-level model of what Python's `wave` module writes for mono 16-bit
PCM: the 44-byte canonical header followed by the little-endian sample
data.  Bytes are `Nat < 256`. -/

def u16le (n : Nat) : List Nat :=
  [n % 256, n / 256 % 256]

def u32le (n : Nat) : List Nat :=
  [n % 256, n / 256 % 256, n / 65536 % 256, n / 16777216 % 256]

def asciiBytes (s : String) : List Nat :=
  s.data.map Char.toNat

/-- `numpy.int16 array.tobytes()`: each sample as two little-endian bytes. -/
def pcmBytes (samples : List Nat) : List Nat :=
  (samples.map (fun s => [s % 256, s / 256 % 256])).flatten

/-- The byte blob `wave` produces: RIFF/WAVE/fmt/data chunks with
nchannels = CHANNELS, sampwidth = 2, framerate = rate. -/
def wavBytes (rate : Nat) (samples : List Nat) : List Nat :=
  let data := pcmBytes samples
  asciiBytes "RIFF" ++ u32le (36 + data.length) ++ asciiBytes "WAVE" ++
    asciiBytes "fmt " ++ u32le 16 ++ u16le 1 ++ u16le CHANNELS ++
    u32le rate ++ u32le (CHANNELS * rate * 2) ++ u16le (CHANNELS * 2) ++
    u16le 16 ++ asciiBytes "data" ++ u32le (data.length) ++ data

/-- `AudioRecorder.get_audio_wav_bytes` (audio_recorder.py, lines
94-113).  `np.concatenate` over an empty chunk list raises, hence
`none` there; otherwise the chunks are concatenated in arrival order
and framed as WAV. -/
def get_audio_wav_bytes (st : RecState) : Option (List Nat) :=
  if st.audio_data = [] then none
  else some (wavBytes st.sample_rate st.audio_data.flatten)

/-! ### Reading the WAV back (the round-trip direction) -/

structure WavInfo where
  nchannels : Nat
  sampwidth : Nat
  framerate : Nat
  nframes : Nat
  samples : List Nat
  deriving DecidableEq, Repr

def readU16 (bs : List Nat) (off : Nat) : Nat :=
  bs.getD off 0 + 256 * bs.getD (off + 1) 0

def readU32 (bs : List Nat) (off : Nat) : Nat :=
  bs.getD off 0 + 256 * bs.getD (off + 1) 0 + 65536 * bs.getD (off + 2) 0 +
    16777216 * bs.getD (off + 3) 0

/-- Decode consecutive little-endian 16-bit samples. -/
def decodeSamples : List Nat → List Nat
  | lo :: hi :: rest => (lo + 256 * hi) :: decodeSamples rest
  | _ => []

/-- A WAV reader for the canonical fixed layout the writer above emits
(what `wave.open(..., 'rb')` reports on such a file): checks the four
chunk tags, then reads channel count, sample width, frame rate, frame
count (data length over frame size) and the sample data. -/
def parseWav (bs : List Nat) : Option WavInfo :=
  if bs.take 4 = asciiBytes "RIFF" ∧ (bs.drop 8).take 4 = asciiBytes "WAVE" ∧
      (bs.drop 12).take 4 = asciiBytes "fmt " ∧ (bs.drop 36).take 4 = asciiBytes "data" then
    let nchannels := readU16 bs 22
    let sampwidth := readU16 bs 34 / 8
    let framerate := readU32 bs 24
    let dataLen := readU32 bs 40
    if nchannels * sampwidth = 0 then none
    else
      some ⟨nchannels, sampwidth, framerate, dataLen / (nchannels * sampwidth),
        decodeSamples ((bs.drop 44).take dataLen)⟩
  else none

/-! ## Python exceptions used by the providers and the factory -/

inductive PyError where
  | valueError : String → PyError
  | runtimeError : String → PyError
  deriving DecidableEq, Repr

/-! ## Deepgram provider (providers/deepgram.py)

The HTTP layer enters as an explicit outcome: either a response (with
its status code and the `transcript` field extracted from the JSON
body, `none` when absent — the chained `.get` defaults make it `''`),
or a `requests.exceptions.RequestException`.  `ValueError` is the
code's `ConfigError`, `RuntimeError` its runtime failure. -/

inductive HttpOutcome where
  | response : Nat → Option String → HttpOutcome
  | networkError : String → HttpOutcome
  deriving DecidableEq, Repr

/-- `DeepgramProvider.transcribe` (deepgram.py, lines 54-107).  A 200
returns `transcript.strip()` (a `str`, possibly empty — Python `None`
is modelled as `Option.none` in the payload); 401/403 raise
`ValueError`; other statuses raise `RuntimeError`; a network exception
is re-raised as `RuntimeError`. -/
def deepgram_transcribe (outcome : HttpOutcome) : Except PyError (Option String) :=
  match outcome with
  | .response status t =>
    if status = 200 then .ok (some (pyStripStr (t.getD "")))
    else if status = 401 then .error (.valueError "Invalid Deepgram API key")
    else if status = 403 then
      .error (.valueError "Deepgram API access forbidden (check API key permissions)")
    else .error (.runtimeError ("Deepgram API returned status code " ++ toString status))
  | .networkError m => .error (.runtimeError ("Network error: " ++ m))

/-- `FasterWhisperServerProvider.transcribe`
(faster_whisper_server.py, lines 72-116).  A 200 returns the stripped
`text` field, converted to `None` when empty; any other status returns
`None` (logged); any `requests.exceptions.RequestException` returns
`None` (logged).  Nothing raises. -/
def fws_transcribe (outcome : HttpOutcome) : Except PyError (Option String) :=
  match outcome with
  | .response status t =>
    if status = 200 then
      let transcript := pyStripStr (t.getD "")
      .ok (if transcript = "" then none else some transcript)
    else .ok none
  | .networkError _ => .ok none

/-! ## Provider registry (providers/__init__.py) -/

def PROVIDERS : List String :=
  ["deepgram-cloud", "whisper-local-cpu", "whisper-local-gpu", "faster-whisper-server"]

/-- `needle` occurs at the start of `hay`. -/
def listStartsWith : List Char → List Char → Bool
  | [], _ => true
  | _ :: _, [] => false
  | a :: as, b :: bs => decide (a = b) && listStartsWith as bs

/-- `needle in hay` (Python substring test). -/
def containsSub (needle : List Char) : List Char → Bool
  | [] => listStartsWith needle []
  | c :: rest => listStartsWith needle (c :: rest) || containsSub needle rest

/-- `config[k] = v` on a Python dict modelled as an association list. -/
def dictSet (d : List (String × String)) (k v : String) : List (String × String) :=
  d.filter (fun p => decide (p.1 ≠ k)) ++ [(k, v)]

def dictGet (d : List (String × String)) (k : String) : Option String :=
  (d.find? (fun p => decide (p.1 = k))).map (fun p => p.2)

/-- `create_provider` (providers/__init__.py, lines 27-51).  Returns
the selected registry key together with the final keyword-argument
dict; unknown names raise `ValueError` listing the registry. -/
def create_provider (name : String) (config : List (String × String)) :
    Except PyError (String × List (String × String)) :=
  let name_lower := pyLowerStr name
  if decide (name_lower ∉ PROVIDERS) then
    .error (.valueError ("Unknown provider '" ++ name ++ "'. Available: " ++
      String.intercalate ", " PROVIDERS))
  else
    let config :=
      if listStartsWith "whisper-local-".data name_lower.data then
        dictSet config "device"
          (if containsSub "gpu".data name_lower.data then "cuda" else "cpu")
      else config
    .ok (name_lower, config)

/-! ## VoiceSnipCore orchestrator (core.py)

State of one `VoiceSnipCore` instance, together with the observable
effects the orchestration methods produce.  `processing_thread` holds
the id of the last submitted worker (Python keeps the `Thread`
object); whether that thread is still alive at a check is an input
from the scheduler.  Callback registration is tracked as presence
flags. -/

structure CoreState where
  recorder : RecState
  processing_thread : Option Nat
  shutting_down : Bool
  status_cb : Bool
  text_cb : Bool
  deriving DecidableEq, Repr

inductive CoreEffect where
  | statusCall : String → CoreEffect
  | startedJob : Nat → CoreEffect
  deriving DecidableEq, Repr

/-- The `try: callback(...) except Exception: pass` body: the callback
either returns or raises. -/
def invoke_callback (raises : Bool) : Except Unit Unit :=
  if raises then .error () else .ok ()

/-- `VoiceSnipCore.update_status` (core.py, lines 59-66).  Returns
(callback invoked?, exception propagated to the caller?).  The
callback runs only when one is registered and the core is not shutting
down; a raising callback is swallowed by the handler. -/
def update_status (st : CoreState) (cbRaises : Bool) : Bool × Bool :=
  if st.status_cb && !st.shutting_down then
    match invoke_callback cbRaises with
    | .ok _ => (true, false)
    | .error _ => (true, false)
  else (false, false)

/-- `VoiceSnipCore.notify_text` (core.py, lines 50-57): same shape as
`update_status` over the text callback. -/
def notify_text (st : CoreState) (cbRaises : Bool) : Bool × Bool :=
  if st.text_cb && !st.shutting_down then
    match invoke_callback cbRaises with
    | .ok _ => (true, false)
    | .error _ => (true, false)
  else (false, false)

/-- `VoiceSnipCore.stop_recording` (core.py, lines 88-107).
`prevAlive` is whether `self.processing_thread.is_alive()` would
return true at the check; `jid` the id a newly spawned worker would
get.  `statusCall` effects record the `update_status(...)` calls in
order; `startedJob` records `threading.Thread(...).start()`. -/
def core_stop_recording (st : CoreState) (prevAlive : Bool) (jid : Nat) :
    CoreState × List CoreEffect :=
  let p := rec_stop_recording st.recorder
  let st1 : CoreState := { st with recorder := p.1 }
  if p.2 = false then
    (st1, [.statusCall "⚠️ No audio data recorded"])
  else if st1.processing_thread.isSome && prevAlive then
    (st1, [.statusCall "⏳ Processing...", .statusCall "⚠️ Previous recording still processing"])
  else
    ({ st1 with processing_thread := some jid },
     [.statusCall "⏳ Processing...", .startedJob jid])

/-- `VoiceSnipCore.start_recording` (core.py, lines 68-87), state
component: no-op when already recording, else delegate to the recorder
(a device failure is caught there and only reported). -/
def core_start_recording (st : CoreState) (outcome : OpenOutcome) : CoreState :=
  if st.recorder.is_recording then st
  else { st with recorder := (start_recording st.recorder outcome).1 }

/-- `VoiceSnipCore.cleanup` (core.py, lines 142-151): set the
shutting-down flag, tear down the recorder, best-effort join of the
worker (which does not change any reference). -/
def core_cleanup (st : CoreState) : CoreState :=
  { st with shutting_down := true, recorder := rec_cleanup st.recorder }

/-- Every state-affecting operation on a `VoiceSnipCore` after
construction, with the environment inputs each one consumes. -/
inductive CoreOp where
  | startRec : OpenOutcome → CoreOp
  | stopRec : Bool → Nat → CoreOp
  | jobFinished : CoreOp
  | setStatusCb : Bool → CoreOp
  | setTextCb : Bool → CoreOp
  | updateStatus : Bool → CoreOp
  | notifyText : Bool → CoreOp
  | cleanup : CoreOp
  deriving DecidableEq, Repr

/-- State transition of one core operation.  `jobFinished` is the
`finally: self.processing_thread = None` at the end of
`_process_audio`; `updateStatus`/`notifyText` never mutate the core. -/
def core_step (st : CoreState) : CoreOp → CoreState
  | .startRec o => core_start_recording st o
  | .stopRec alive jid => (core_stop_recording st alive jid).1
  | .jobFinished => { st with processing_thread := none }
  | .setStatusCb b => { st with status_cb := b }
  | .setTextCb b => { st with text_cb := b }
  | .updateStatus _ => st
  | .notifyText _ => st
  | .cleanup => core_cleanup st

def core_run (st : CoreState) (ops : List CoreOp) : CoreState :=
  ops.foldl core_step st

end VoiceSnip

namespace VoiceSnip

/-! ## Theorems -/

/-- C2 counterexample: on an HTTP 200 whose transcript field is the
empty string, `DeepgramProvider.transcribe` returns the empty string
`""` (Python `''`), not `None`: the claim "transcribe returns none" is
false at this input. -/
theorem deepgram_empty_transcript_counterexample :
    deepgram_transcribe (.response 200 (some "")) = .ok (some "") ∧
      deepgram_transcribe (.response 200 (some "")) ≠ .ok none := by
  decide

/-- C2 (amended): for every HTTP 200 response whose transcript field
strips to the empty string, `DeepgramProvider.transcribe` returns the
empty string (a falsy value, but not `None`) and does not raise. -/
theorem deepgram_empty_transcript_no_raise (t : String)
    (h : pyStripStr t = "") :
    deepgram_transcribe (.response 200 (some t)) = .ok (some "") := by
  simp [deepgram_transcribe, h]

theorem deepgram_empty_transcript_no_raise_witness :
    pyStripStr "  " = "" ∧
      deepgram_transcribe (.response 200 (some "  ")) = .ok (some "") :=
  ⟨by decide, deepgram_empty_transcript_no_raise "  " (by decide)⟩

/-- C3: `DeepgramProvider.transcribe` maps HTTP 401 and 403 to
`ValueError` (the ConfigError kind), every other non-200 status to
`RuntimeError`, and a network exception during the request to
`RuntimeError`. -/
theorem deepgram_error_mapping :
    (∀ t, ∃ m, deepgram_transcribe (.response 401 t) = .error (.valueError m)) ∧
    (∀ t, ∃ m, deepgram_transcribe (.response 403 t) = .error (.valueError m)) ∧
    (∀ status t, status ≠ 200 → status ≠ 401 → status ≠ 403 →
      ∃ m, deepgram_transcribe (.response status t) = .error (.runtimeError m)) ∧
    (∀ m, ∃ m2, deepgram_transcribe (.networkError m) = .error (.runtimeError m2)) := by
  refine ⟨fun t => ⟨_, rfl⟩, fun t => ⟨_, rfl⟩, ?_, fun m => ⟨_, rfl⟩⟩
  intro status t h200 h401 h403
  exact ⟨"Deepgram API returned status code " ++ toString status,
    by simp [deepgram_transcribe, h200, h401, h403]⟩

theorem deepgram_error_mapping_witness :
    (∃ m, deepgram_transcribe (.response 500 none) = .error (.runtimeError m)) ∧
    (∃ m, deepgram_transcribe (.response 401 none) = .error (.valueError m)) :=
  ⟨deepgram_error_mapping.2.2.1 500 none (by decide) (by decide) (by decide),
   deepgram_error_mapping.1 none⟩

/-- C4: `FasterWhisperServerProvider.transcribe` never raises: no
outcome produces an exception, a non-200 response returns `None`, and
a network exception returns `None`. -/
theorem fws_transcribe_never_raises :
    (∀ o e, fws_transcribe o ≠ .error e) ∧
    (∀ status t, status ≠ 200 → fws_transcribe (.response status t) = .ok none) ∧
    (∀ m, fws_transcribe (.networkError m) = .ok none) := by
  refine ⟨?_, ?_, fun m => rfl⟩
  · intro o e h
    cases o with
    | response status t =>
      unfold fws_transcribe at h
      split at h
      · split at h <;> exact Except.noConfusion h
      · exact Except.noConfusion h
    | networkError m => exact Except.noConfusion h
  · intro status t h
    simp [fws_transcribe, h]

theorem fws_transcribe_never_raises_witness :
    fws_transcribe (.response 500 (some "oops")) = .ok none :=
  fws_transcribe_never_raises.2.1 500 (some "oops") (by decide)

/-- For a dict modelled as an association list, setting a key then
reading it back yields the written value. -/
theorem dictGet_dictSet (d : List (String × String)) (k v : String) :
    dictGet (dictSet d k v) k = some v := by
  induction d with
  | nil => simp [dictGet, dictSet]
  | cons p rest ih =>
    by_cases h : p.1 = k <;>
      simp_all [dictGet, dictSet, List.filter_cons, List.find?]

/-- C9: `create_provider` rejects every name whose lower-casing is not
in the registry with a `ValueError` whose message lists all registered
provider names, and injects `device = "cuda"` / `device = "cpu"` into
the configuration for the `whisper-local-gpu` / `whisper-local-cpu`
registry entries before construction. -/
theorem create_provider_spec (name : String) (config : List (String × String)) :
    (pyLowerStr name ∉ PROVIDERS →
      create_provider name config = .error (.valueError ("Unknown provider '" ++ name ++
        "'. Available: " ++
        "deepgram-cloud, whisper-local-cpu, whisper-local-gpu, faster-whisper-server"))) ∧
    (pyLowerStr name = "whisper-local-gpu" →
      ∃ cfg, create_provider name config = .ok ("whisper-local-gpu", cfg) ∧
        dictGet cfg "device" = some "cuda") ∧
    (pyLowerStr name = "whisper-local-cpu" →
      ∃ cfg, create_provider name config = .ok ("whisper-local-cpu", cfg) ∧
        dictGet cfg "device" = some "cpu") := by
  have havail : String.intercalate ", " PROVIDERS =
      "deepgram-cloud, whisper-local-cpu, whisper-local-gpu, faster-whisper-server" := by
    decide
  refine ⟨fun h => ?_, fun h => ?_, fun h => ?_⟩
  · simp [create_provider, h, havail]
  · refine ⟨dictSet config "device" "cuda", ?_, dictGet_dictSet config "device" "cuda"⟩
    have h1 : decide (("whisper-local-gpu" : String) ∉ PROVIDERS) = false := by decide
    have h2 : listStartsWith "whisper-local-".data "whisper-local-gpu".data = true := by decide
    have h3 : containsSub "gpu".data "whisper-local-gpu".data = true := by decide
    rw [create_provider, h]
    simp [h1, h2, h3]
  · refine ⟨dictSet config "device" "cpu", ?_, dictGet_dictSet config "device" "cpu"⟩
    have h1 : decide (("whisper-local-cpu" : String) ∉ PROVIDERS) = false := by decide
    have h2 : listStartsWith "whisper-local-".data "whisper-local-cpu".data = true := by decide
    have h3 : containsSub "gpu".data "whisper-local-cpu".data = false := by decide
    rw [create_provider, h]
    simp [h1, h2, h3]

theorem create_provider_spec_witness :
    create_provider "bogus" [] = .error (.valueError ("Unknown provider '" ++ "bogus" ++
      "'. Available: " ++
      "deepgram-cloud, whisper-local-cpu, whisper-local-gpu, faster-whisper-server")) ∧
    (∃ cfg, create_provider "Whisper-Local-GPU" [] = .ok ("whisper-local-gpu", cfg) ∧
      dictGet cfg "device" = some "cuda") :=
  ⟨(create_provider_spec "bogus" []).1 (by decide),
   (create_provider_spec "Whisper-Local-GPU" []).2.1 (by decide)⟩

/-- C1: when `VoiceSnipCore.stop_recording` finds captured audio but
the previously submitted processing thread is still alive, no new job
is started (and the worker reference — the only job slot, there is no
queue — is left pointing at the old job), the status "previous
recording still processing" is reported, and the freshly captured
audio is dropped (left undrained in the recorder, consumed by no
job). -/
theorem stop_recording_busy_rejects (st : CoreState) (jid : Nat)
    (hprev : st.processing_thread.isSome = true)
    (hrec : st.recorder.is_recording = true)
    (haudio : st.recorder.audio_data ≠ []) :
    (core_stop_recording st true jid).1.processing_thread = st.processing_thread ∧
    (∀ j, CoreEffect.startedJob j ∉ (core_stop_recording st true jid).2) ∧
    CoreEffect.statusCall "⚠️ Previous recording still processing" ∈
      (core_stop_recording st true jid).2 ∧
    (core_stop_recording st true jid).1.recorder.audio_data = st.recorder.audio_data := by
  unfold core_stop_recording rec_stop_recording
  simp [hrec, haudio, hprev]

theorem stop_recording_busy_rejects_witness :
    (core_stop_recording ⟨⟨none, 16000, true, [[1]], some 3⟩, some 0, false, true, true⟩
        true 1).1.processing_thread = some 0 ∧
    (∀ j, CoreEffect.startedJob j ∉
      (core_stop_recording ⟨⟨none, 16000, true, [[1]], some 3⟩, some 0, false, true, true⟩
        true 1).2) ∧
    CoreEffect.statusCall "⚠️ Previous recording still processing" ∈
      (core_stop_recording ⟨⟨none, 16000, true, [[1]], some 3⟩, some 0, false, true, true⟩
        true 1).2 ∧
    (core_stop_recording ⟨⟨none, 16000, true, [[1]], some 3⟩, some 0, false, true, true⟩
        true 1).1.recorder.audio_data = [[1]] :=
  stop_recording_busy_rejects
    ⟨⟨none, 16000, true, [[1]], some 3⟩, some 0, false, true, true⟩ 1
    (by decide) (by decide) (by decide)

/-- C8: whenever `AudioRecorder.start_recording` lets the device
exception propagate, the recorder ends disarmed with no stream
reference, every stream opened during the call was closed during the
call, and a subsequent `start_recording` succeeds normally (the
session is usable for a retry). -/
theorem start_recording_failure_cleanup (st : RecState) (outcome : OpenOutcome)
    (hraise : (start_recording st outcome).2.2 = true) :
    (start_recording st outcome).1.is_recording = false ∧
    (start_recording st outcome).1.stream = none ∧
    (∀ sid, RecEvent.opened sid ∈ (start_recording st outcome).2.1 →
      RecEvent.closed sid ∈ (start_recording st outcome).2.1) ∧
    (∀ sid, start_recording (start_recording st outcome).1 (.ok sid) =
      (⟨st.device_id, st.sample_rate, true, [], some sid⟩, [RecEvent.opened sid], false)) := by
  unfold start_recording at hraise ⊢
  by_cases h : st.is_recording
  · simp [h] at hraise
  · cases outcome with
    | ok sid => simp [h] at hraise
    | failConstruct =>
      cases hs : st.stream with
      | none => simp [h, hs]
      | some old => simp [h, hs]
    | failStart sid => simp [h]

theorem start_recording_failure_cleanup_witness :
    (start_recording ⟨none, 16000, false, [], none⟩ (.failStart 7)).1.is_recording = false ∧
    (start_recording ⟨none, 16000, false, [], none⟩ (.failStart 7)).1.stream = none ∧
    (∀ sid, RecEvent.opened sid ∈
        (start_recording ⟨none, 16000, false, [], none⟩ (.failStart 7)).2.1 →
      RecEvent.closed sid ∈
        (start_recording ⟨none, 16000, false, [], none⟩ (.failStart 7)).2.1) ∧
    (∀ sid, start_recording (start_recording ⟨none, 16000, false, [], none⟩ (.failStart 7)).1
        (.ok sid) = (⟨none, 16000, true, [], some sid⟩, [RecEvent.opened sid], false)) :=
  start_recording_failure_cleanup ⟨none, 16000, false, [], none⟩ (.failStart 7) (by decide)

/-- One core operation never clears the shutting-down flag. -/
theorem core_step_shutdown (st : CoreState) (op : CoreOp)
    (h : st.shutting_down = true) : (core_step st op).shutting_down = true := by
  cases op
  case startRec o =>
    simp only [core_step, core_start_recording]
    split <;> exact h
  case stopRec alive jid =>
    simp only [core_step, core_stop_recording]
    split
    · exact h
    · split <;> exact h
  case cleanup => rfl
  all_goals exact h

/-- `shutting_down`, once set, survives any sequence of core operations. -/
theorem core_run_shutdown (ops : List CoreOp) (st : CoreState)
    (h : st.shutting_down = true) : (core_run st ops).shutting_down = true := by
  induction ops generalizing st with
  | nil => exact h
  | cons op rest ih => exact ih _ (core_step_shutdown st op h)

/-- C10: after `cleanup()` sets the shutting-down flag, no sequence of
further core operations lets `update_status` or `notify_text` invoke
the registered status/text callback; and for any core state, a
callback that raises never propagates its exception to the caller of
`update_status`/`notify_text`. -/
theorem no_callback_after_cleanup (st : CoreState) (ops : List CoreOp) (r1 r2 : Bool) :
    (update_status (core_run (core_cleanup st) ops) r1).1 = false ∧
    (notify_text (core_run (core_cleanup st) ops) r2).1 = false ∧
    (∀ st2 r, (update_status st2 r).2 = false ∧ (notify_text st2 r).2 = false) := by
  have hsd : (core_run (core_cleanup st) ops).shutting_down = true :=
    core_run_shutdown ops (core_cleanup st) rfl
  refine ⟨?_, ?_, ?_⟩
  · simp [update_status, hsd]
  · simp [notify_text, hsd]
  · intro st2 r
    constructor
    · simp only [update_status]
      split
      · split <;> rfl
      · rfl
    · simp only [notify_text]
      split
      · split <;> rfl
      · rfl

/-- Folding `parseStep` over the tokens accumulates the modifier
tokens' keys in order and overwrites the trigger with each
non-modifier token's key. -/
theorem parseStep_foldl (parts : List String) (ms : List PKey) (t : Option PKey) :
    parts.foldl parseStep (ms, t) =
      (ms ++ (parts.filter isModifierName).filterMap KEY_MAP,
        (parts.filter (fun p => !isModifierName p)).foldl
          (fun _a p => some (triggerOf p)) t) := by
  induction parts generalizing ms t with
  | nil => simp
  | cons p rest ih =>
    by_cases hm : isModifierName p = true
    · cases hk : KEY_MAP p with
      | some k =>
        simp only [List.foldl_cons, parseStep, hm, if_true, hk, List.filter_cons]
        rw [ih]
        simp [hm, hk, List.append_assoc]
      | none =>
        simp only [List.foldl_cons, parseStep, hm, if_true, hk, List.filter_cons]
        rw [ih]
        simp [hm, hk]
    · cases hk : KEY_MAP p with
      | some k =>
        simp only [List.foldl_cons, parseStep, hm, if_false, hk, List.filter_cons]
        rw [ih]
        simp [hm, hk, triggerOf]
      | none =>
        simp only [List.foldl_cons, parseStep, hm, if_false, hk, List.filter_cons]
        rw [ih]
        simp [hm, hk, triggerOf]

/-- A fold that overwrites its accumulator ends at the last element. -/
theorem foldl_overwrite {α β : Type} (f : α → β) (l : List α) (t : Option β)
    (h : l ≠ []) :
    l.foldl (fun _a p => some (f p)) t = some (f (l.getLast h)) := by
  induction l generalizing t with
  | nil => exact absurd rfl h
  | cons p rest ih =>
    cases rest with
    | nil => simp [List.getLast]
    | cons q rest2 =>
      rw [List.foldl_cons, ih (some (f p)) (by simp)]
      rfl

/-- C7: `parse_hotkey` fails exactly when the string is empty or
whitespace-only, when splitting leaves zero (non-blank) tokens, or
when every token is a modifier name (no trigger); on every other
string it returns a config whose single trigger key comes from the
last non-modifier token and whose modifier list collects the keys of
all modifier tokens in order. -/
theorem parse_hotkey_spec (s : String) :
    ((∃ e, parse_hotkey s = .error e) ↔
      (s = "" ∨ pyStrip s.data = [] ∨ hotkeyParts s = [] ∨
        (hotkeyParts s).filter (fun p => !isModifierName p) = [])) ∧
    (∀ cfg, parse_hotkey s = .ok cfg →
      (∃ h : (hotkeyParts s).filter (fun p => !isModifierName p) ≠ [],
        cfg.trigger_key =
          triggerOf (((hotkeyParts s).filter (fun p => !isModifierName p)).getLast h)) ∧
      cfg.modifiers = ((hotkeyParts s).filter isModifierName).filterMap KEY_MAP ∧
      cfg.raw = s) := by
  have hfold := parseStep_foldl (hotkeyParts s) [] none
  by_cases h1 : s = "" ∨ pyStrip s.data = []
  · have hval : parse_hotkey s = .error "Hotkey cannot be empty" := by
      unfold parse_hotkey
      rw [if_pos h1]
    refine ⟨⟨fun _ => ?_, fun _ => ⟨_, hval⟩⟩, fun cfg hcfg => ?_⟩
    · rcases h1 with h | h
      · exact Or.inl h
      · exact Or.inr (Or.inl h)
    · rw [hval] at hcfg
      exact Except.noConfusion hcfg
  · by_cases h2 : hotkeyParts s = []
    · have hval : parse_hotkey s = .error "Invalid hotkey format" := by
        unfold parse_hotkey
        rw [if_neg h1, if_pos h2]
      refine ⟨⟨fun _ => Or.inr (Or.inr (Or.inl h2)), fun _ => ⟨_, hval⟩⟩, fun cfg hcfg => ?_⟩
      rw [hval] at hcfg
      exact Except.noConfusion hcfg
    · by_cases h3 : (hotkeyParts s).filter (fun p => !isModifierName p) = []
      · have hval : parse_hotkey s =
            .error ("Invalid hotkey: no trigger key found in '" ++ s ++ "'") := by
          unfold parse_hotkey
          rw [if_neg h1, if_neg h2, hfold, h3]
          rfl
        refine ⟨⟨fun _ => Or.inr (Or.inr (Or.inr h3)), fun _ => ⟨_, hval⟩⟩,
          fun cfg hcfg => ?_⟩
        rw [hval] at hcfg
        exact Except.noConfusion hcfg
      · have hval : parse_hotkey s =
            .ok ⟨((hotkeyParts s).filter isModifierName).filterMap KEY_MAP,
              triggerOf (((hotkeyParts s).filter (fun p => !isModifierName p)).getLast h3),
              s⟩ := by
          unfold parse_hotkey
          rw [if_neg h1, if_neg h2, hfold, foldl_overwrite triggerOf _ none h3]
          simp
        refine ⟨⟨fun ⟨e, he⟩ => ?_, fun hd => ?_⟩, fun cfg hcfg => ?_⟩
        · rw [hval] at he
          exact Except.noConfusion he
        · rcases hd with h | h | h | h
          · exact absurd (Or.inl h) h1
          · exact absurd (Or.inr h) h1
          · exact absurd h h2
          · exact absurd h h3
        · rw [hval] at hcfg
          cases hcfg
          exact ⟨⟨h3, rfl⟩, rfl, rfl⟩

theorem parse_hotkey_spec_witness :
    (∃ h : (hotkeyParts "ctrl+shift+A").filter (fun p => !isModifierName p) ≠ [],
      (⟨[PKey.special "ctrl", PKey.special "shift"], PKey.keycode (some "a"),
        "ctrl+shift+A"⟩ : HotkeyConfig).trigger_key =
        triggerOf (((hotkeyParts "ctrl+shift+A").filter
          (fun p => !isModifierName p)).getLast h)) ∧
    (⟨[PKey.special "ctrl", PKey.special "shift"], PKey.keycode (some "a"),
      "ctrl+shift+A"⟩ : HotkeyConfig).modifiers =
      ((hotkeyParts "ctrl+shift+A").filter isModifierName).filterMap KEY_MAP ∧
    (⟨[PKey.special "ctrl", PKey.special "shift"], PKey.keycode (some "a"),
      "ctrl+shift+A"⟩ : HotkeyConfig).raw = "ctrl+shift+A" :=
  (parse_hotkey_spec "ctrl+shift+A").2
    ⟨[PKey.special "ctrl", PKey.special "shift"], PKey.keycode (some "a"), "ctrl+shift+A"⟩
    (by decide)

/-- C6: for well-formed triggers (exactly those `parse_hotkey`
produces), `is_hotkey_pressed` is true iff every chord modifier is in
the pressed set and the trigger is present — case-insensitively by
character value for character triggers, by identity for named keys;
and removing a required key (a chord modifier, or the unique pressed
key matching the trigger) from the pressed set makes it false. -/
theorem is_hotkey_pressed_spec (cfg : HotkeyConfig) (pressed : List PKey)
    (hwf : wfTrigger cfg.trigger_key = true) :
    (is_hotkey_pressed cfg pressed = true ↔ chordSatisfiedSpec cfg pressed) ∧
    (∀ k ∈ cfg.modifiers,
      is_hotkey_pressed cfg (pressed.filter (fun p => !decide (p = k))) = false) ∧
    (∀ k, trigger_match cfg.trigger_key k = true →
      (∀ p ∈ pressed, trigger_match cfg.trigger_key p = true → p = k) →
      is_hotkey_pressed cfg (pressed.filter (fun p => !decide (p = k))) = false) := by
  obtain ⟨mods, trig, raw⟩ := cfg
  refine ⟨?_, ?_, ?_⟩
  · cases trig with
    | special n =>
      simp [is_hotkey_pressed, chordSatisfiedSpec, trigger_match, Bool.and_eq_true,
        List.all_eq_true, List.any_eq_true]
    | keycode c =>
      cases c with
      | none => simp [wfTrigger] at hwf
      | some s =>
        have hs : s.data ≠ [] := of_decide_eq_true hwf
        simp only [is_hotkey_pressed, chordSatisfiedSpec, Bool.and_eq_true,
          List.all_eq_true, List.any_eq_true, decide_eq_true_eq]
        constructor
        · rintro ⟨hA, p, hp, hmatch⟩
          refine ⟨fun m hm => ?_, ?_⟩
          · obtain ⟨q, hq, hqe⟩ := hA m hm
            exact hqe ▸ hq
          · cases p with
            | special pn => simp [trigger_match] at hmatch
            | keycode pc =>
              cases pc with
              | none => simp [trigger_match] at hmatch
              | some pcs =>
                simp [trigger_match, hs, Bool.and_eq_true,
                  decide_eq_true_eq, Option.some.injEq] at hmatch
                exact ⟨pcs, hp, hmatch.2⟩
        · rintro ⟨hA, pc, hpc, heq⟩
          have hpcne : pc.data ≠ [] := by
            intro hn
            apply hs
            have h2 : pyLower pc.data = pyLower s.data := heq
            rw [hn] at h2
            simpa [pyLower, eq_comm] using h2
          refine ⟨fun m hm => ⟨m, hA m hm, rfl⟩, PKey.keycode (some pc), hpc, ?_⟩
          simp [trigger_match, hs, hpcne, heq]
  · intro k hk
    cases hb : is_hotkey_pressed ⟨mods, trig, raw⟩ (pressed.filter fun p => !decide (p = k)) with
    | false => rfl
    | true =>
      exfalso
      rw [is_hotkey_pressed, Bool.and_eq_true, List.all_eq_true] at hb
      obtain ⟨hA, _⟩ := hb
      rcases List.any_eq_true.mp (hA k hk) with ⟨p, hp, hpe⟩
      rw [List.mem_filter] at hp
      have hpk := of_decide_eq_true hpe
      subst hpk
      simp at hp
  · intro k hmatch huniq
    cases hb : is_hotkey_pressed ⟨mods, trig, raw⟩ (pressed.filter fun p => !decide (p = k)) with
    | false => rfl
    | true =>
      exfalso
      rw [is_hotkey_pressed, Bool.and_eq_true] at hb
      obtain ⟨_, hB⟩ := hb
      rcases List.any_eq_true.mp hB with ⟨p, hp, hpe⟩
      rw [List.mem_filter] at hp
      have hpk := huniq p hp.1 hpe
      subst hpk
      simp at hp

theorem is_hotkey_pressed_spec_witness :
    is_hotkey_pressed ⟨[PKey.special "ctrl"], PKey.keycode (some "a"), "ctrl+a"⟩
      [PKey.special "ctrl", PKey.keycode (some "A")] = true ∧
    chordSatisfiedSpec ⟨[PKey.special "ctrl"], PKey.keycode (some "a"), "ctrl+a"⟩
      [PKey.special "ctrl", PKey.keycode (some "A")] :=
  ⟨by decide,
   ((is_hotkey_pressed_spec ⟨[PKey.special "ctrl"], PKey.keycode (some "a"), "ctrl+a"⟩
      [PKey.special "ctrl", PKey.keycode (some "A")] (by decide)).1).mp (by decide)⟩

/-- Two bytes per 16-bit sample. -/
theorem pcmBytes_length (samples : List Nat) :
    (pcmBytes samples).length = 2 * samples.length := by
  induction samples with
  | nil => rfl
  | cons s rest ih =>
    show (s % 256 :: s / 256 % 256 :: pcmBytes rest).length = 2 * (s :: rest).length
    simp only [List.length_cons, ih]
    omega

/-- Decoding the little-endian byte stream recovers the samples. -/
theorem decodeSamples_pcmBytes (samples : List Nat)
    (h : ∀ s ∈ samples, s < 65536) :
    decodeSamples (pcmBytes samples) = samples := by
  induction samples with
  | nil => rfl
  | cons s rest ih =>
    have hs : s < 65536 := h s (List.mem_cons_self s rest)
    have hr := ih (fun x hx => h x (List.mem_cons_of_mem s hx))
    show decodeSamples (s % 256 :: s / 256 % 256 :: pcmBytes rest) = s :: rest
    simp only [decodeSamples, hr]
    congr 1
    omega

/-- The writer's byte blob, flattened to one explicit byte list. -/
theorem wavBytes_eq (rate : Nat) (samples : List Nat) :
    wavBytes rate samples =
      82 :: 73 :: 70 :: 70 ::
      (36 + (pcmBytes samples).length) % 256 ::
      (36 + (pcmBytes samples).length) / 256 % 256 ::
      (36 + (pcmBytes samples).length) / 65536 % 256 ::
      (36 + (pcmBytes samples).length) / 16777216 % 256 ::
      87 :: 65 :: 86 :: 69 ::
      102 :: 109 :: 116 :: 32 ::
      16 :: 0 :: 0 :: 0 ::
      1 :: 0 ::
      1 :: 0 ::
      rate % 256 :: rate / 256 % 256 :: rate / 65536 % 256 :: rate / 16777216 % 256 ::
      rate * 2 % 256 :: rate * 2 / 256 % 256 ::
      rate * 2 / 65536 % 256 :: rate * 2 / 16777216 % 256 ::
      2 :: 0 ::
      16 :: 0 ::
      100 :: 97 :: 116 :: 97 ::
      (pcmBytes samples).length % 256 :: (pcmBytes samples).length / 256 % 256 ::
      (pcmBytes samples).length / 65536 % 256 ::
      (pcmBytes samples).length / 16777216 % 256 ::
      pcmBytes samples := by
  have a1 : asciiBytes "RIFF" = [82, 73, 70, 70] := by decide
  have a2 : asciiBytes "WAVE" = [87, 65, 86, 69] := by decide
  have a3 : asciiBytes "fmt " = [102, 109, 116, 32] := by decide
  have a4 : asciiBytes "data" = [100, 97, 116, 97] := by decide
  simp [wavBytes, u16le, u32le, CHANNELS, a1, a2, a3, a4]

/-- The WAV blob the recorder writes parses back to mono (1 channel),
16-bit (2-byte) samples at the written rate, with one frame per sample
and the original sample sequence. -/
theorem parseWav_wavBytes (rate : Nat) (samples : List Nat)
    (hrate : rate < 4294967296) (hlen : 2 * samples.length < 4294967296)
    (hs : ∀ s ∈ samples, s < 65536) :
    parseWav (wavBytes rate samples) = some ⟨1, 2, rate, samples.length, samples⟩ := by
  have hplen : (pcmBytes samples).length = 2 * samples.length := pcmBytes_length samples
  have hdec : decodeSamples (pcmBytes samples) = samples := decodeSamples_pcmBytes samples hs
  rw [wavBytes_eq]
  generalize hd : pcmBytes samples = d
  rw [hd] at hplen hdec
  have hstep : parseWav
      (82 :: 73 :: 70 :: 70 ::
        (36 + d.length) % 256 :: (36 + d.length) / 256 % 256 ::
        (36 + d.length) / 65536 % 256 :: (36 + d.length) / 16777216 % 256 ::
        87 :: 65 :: 86 :: 69 ::
        102 :: 109 :: 116 :: 32 ::
        16 :: 0 :: 0 :: 0 ::
        1 :: 0 ::
        1 :: 0 ::
        rate % 256 :: rate / 256 % 256 :: rate / 65536 % 256 :: rate / 16777216 % 256 ::
        rate * 2 % 256 :: rate * 2 / 256 % 256 ::
        rate * 2 / 65536 % 256 :: rate * 2 / 16777216 % 256 ::
        2 :: 0 ::
        16 :: 0 ::
        100 :: 97 :: 116 :: 97 ::
        d.length % 256 :: d.length / 256 % 256 ::
        d.length / 65536 % 256 :: d.length / 16777216 % 256 ::
        d) =
      some ⟨1, 2,
        rate % 256 + 256 * (rate / 256 % 256) + 65536 * (rate / 65536 % 256) +
          16777216 * (rate / 16777216 % 256),
        (d.length % 256 + 256 * (d.length / 256 % 256) + 65536 * (d.length / 65536 % 256) +
          16777216 * (d.length / 16777216 % 256)) / 2,
        decodeSamples (d.take (d.length % 256 + 256 * (d.length / 256 % 256) +
          65536 * (d.length / 65536 % 256) + 16777216 * (d.length / 16777216 % 256)))⟩ := by
    with_unfolding_all rfl
  rw [hstep]
  have he1 : rate % 256 + 256 * (rate / 256 % 256) + 65536 * (rate / 65536 % 256) +
      16777216 * (rate / 16777216 % 256) = rate := by omega
  have he2 : d.length % 256 + 256 * (d.length / 256 % 256) + 65536 * (d.length / 65536 % 256) +
      16777216 * (d.length / 16777216 % 256) = d.length := by omega
  rw [he1, he2, List.take_length, hdec, hplen]
  have he3 : 2 * samples.length / 2 = samples.length := by omega
  rw [he3]

/-- C5: for every recorder state with a non-empty chunk sequence,
`get_audio_wav_bytes` produces bytes that parse back as WAV with
channel count 1, 16-bit (2-byte) sample width, the configured sample
rate, a frame count equal to the sum of all chunk lengths, and the
samples concatenated in arrival order. -/
theorem get_audio_wav_bytes_roundtrip (st : RecState)
    (hne : st.audio_data ≠ [])
    (hs : ∀ c ∈ st.audio_data, ∀ x ∈ c, x < 65536)
    (hrate : st.sample_rate < 4294967296)
    (hlen : 2 * st.audio_data.flatten.length < 4294967296) :
    ∃ wav, get_audio_wav_bytes st = some wav ∧
      parseWav wav = some ⟨CHANNELS, 2, st.sample_rate,
        (st.audio_data.map List.length).sum, st.audio_data.flatten⟩ := by
  refine ⟨wavBytes st.sample_rate st.audio_data.flatten, ?_, ?_⟩
  · rw [get_audio_wav_bytes, if_neg hne]
  · have hsf : ∀ x ∈ st.audio_data.flatten, x < 65536 := by
      intro x hx
      rcases List.mem_flatten.mp hx with ⟨c, hc, hxc⟩
      exact hs c hc x hxc
    rw [parseWav_wavBytes st.sample_rate st.audio_data.flatten hrate hlen hsf]
    simp [CHANNELS, List.length_flatten]

theorem get_audio_wav_bytes_roundtrip_witness :
    ∃ wav, get_audio_wav_bytes ⟨none, 16000, false, [[1, 2], [3]], none⟩ = some wav ∧
      parseWav wav = some ⟨CHANNELS, 2, 16000, 3, [1, 2, 3]⟩ :=
  get_audio_wav_bytes_roundtrip ⟨none, 16000, false, [[1, 2], [3]], none⟩
    (by decide) (by decide) (by decide) (by decide)

end VoiceSnip
